import Mathlib

/-!
Shallow embedding of the homebridge-sharkiq plugin's core logic
(`platformAccessory.ts` and `platform.ts`): the polling cache with change
detection, the debounced state retrieval, the login entry checks and the
configuration defaults, together with theorems settling the spec's claims.
-/

namespace SharkIQ

/-- Operating modes of the vacuum (`sharkiq-js`); the accessory compares the
fetched mode against `START` and `STOP` and issues `RETURN_TO_BASE`. -/
inductive OperatingModes where
  | IDLE
  | PAUSE
  | START
  | STOP
  | RETURN_TO_BASE
deriving DecidableEq, Repr, Inhabited

/-- Power modes of the vacuum (`sharkiq-js`): ECO, NORMAL, MAX. -/
inductive PowerModes where
  | ECO
  | NORMAL
  | MAX
deriving DecidableEq, Repr, Inhabited

/-- `SharkIQAccessory.lastKnownStates`: the per-property last cached value;
`none` models the initial `null` before the first observation. -/
structure LastKnownStates where
  docked : Option Bool
  active : Option Bool
  powerMode : Option PowerModes
deriving DecidableEq, Repr, Inhabited

/-- The values `device.docked_status()`, `device.operating_mode()` and
`device.power_mode()` return after a successful `device.update([...])`. -/
structure VacuumStateFetch where
  docked_status : Int
  operating_mode : OperatingModes
  power_mode : PowerModes
deriving DecidableEq, Repr, Inhabited

/-- A change notification: an `updateCharacteristic` call made because a
tracked property's fresh value differs from the cached one. -/
inductive ChangeEvent where
  | docked (previous : Option Bool) (current : Bool)
  | active (previous : Option Bool) (current : Bool)
  | powerMode (previous : Option PowerModes) (current : PowerModes)
deriving DecidableEq, Repr

/-- `this.invertDockedStatus ? docked_status !== 1 : docked_status === 1`
(`platformAccessory.ts`, used at lines 117 and 156). -/
def vacuumDocked (invertDockedStatus : Bool) (docked_status : Int) : Bool :=
  if invertDockedStatus then decide (docked_status ≠ 1) else decide (docked_status = 1)

/-- `mode === OperatingModes.START || mode === OperatingModes.STOP`. -/
def vacuumActive (mode : OperatingModes) : Bool :=
  mode == OperatingModes.START || mode == OperatingModes.STOP

/-- The `try` body of `SharkIQAccessory.retrieveVacuumStates`: compute the
fresh values and, for each tracked property whose fresh value differs from
the cached one (`!==`, so an initial `null` cache always differs), push one
characteristic update and replace the cached value. -/
def retrieveVacuumStatesBody (invertDockedStatus : Bool) (s : LastKnownStates)
    (f : VacuumStateFetch) : LastKnownStates × List ChangeEvent :=
  let vd := vacuumDocked invertDockedStatus f.docked_status
  let va := vacuumActive f.operating_mode
  let pm := f.power_mode
  let r1 : LastKnownStates × List ChangeEvent :=
    if s.docked ≠ some vd then
      ({ s with docked := some vd }, [ChangeEvent.docked s.docked vd])
    else (s, [])
  let r2 : LastKnownStates × List ChangeEvent :=
    if r1.1.active ≠ some va then
      ({ r1.1 with active := some va }, r1.2 ++ [ChangeEvent.active r1.1.active va])
    else r1
  let r3 : LastKnownStates × List ChangeEvent :=
    if r2.1.powerMode ≠ some pm then
      ({ r2.1 with powerMode := some pm }, r2.2 ++ [ChangeEvent.powerMode r2.1.powerMode pm])
    else r2
  r3

/-- `SharkIQAccessory.retrieveVacuumStates`: `device.update` may fail, in
which case the `catch` only logs the error, touching neither the cache nor
any characteristic. -/
def retrieveVacuumStates (invertDockedStatus : Bool) (s : LastKnownStates)
    (fetch : Except String VacuumStateFetch) : LastKnownStates × List ChangeEvent :=
  match fetch with
  | Except.ok f => retrieveVacuumStatesBody invertDockedStatus s f
  | Except.error _ => (s, [])

/-- Number of docked-status notifications in an event list. -/
def dockedEvents (es : List ChangeEvent) : Nat :=
  (es.filter fun e => match e with | ChangeEvent.docked _ _ => true | _ => false).length

/-- Number of active-status notifications in an event list. -/
def activeEvents (es : List ChangeEvent) : Nat :=
  (es.filter fun e => match e with | ChangeEvent.active _ _ => true | _ => false).length

/-- Number of power-mode notifications in an event list. -/
def powerModeEvents (es : List ChangeEvent) : Nat :=
  (es.filter fun e => match e with | ChangeEvent.powerMode _ _ => true | _ => false).length

/-- Run a sequence of successful polls, returning the notifications each
poll emitted, in order. -/
def runPolls (invertDockedStatus : Bool) (s : LastKnownStates) :
    List VacuumStateFetch → List (List ChangeEvent)
  | [] => []
  | f :: fs =>
    let r := retrieveVacuumStates invertDockedStatus s (Except.ok f)
    r.2 :: runPolls invertDockedStatus r.1 fs

/-- The cached state right before the poll at index `i` of a run. -/
def stateBeforePoll (invertDockedStatus : Bool) (s : LastKnownStates) :
    List VacuumStateFetch → Nat → LastKnownStates
  | _, 0 => s
  | [], _ + 1 => s
  | f :: fs, i + 1 =>
    stateBeforePoll invertDockedStatus
      (retrieveVacuumStates invertDockedStatus s (Except.ok f)).1 fs i

/-- `SharkIQAccessory.retrieveDockedStatus`: an on-demand read that fetches
the docked status; if `device.update` throws, the `catch` logs and the method
returns `false`. -/
def retrieveDockedStatus (invertDockedStatus : Bool) (fetch : Except String Int) : Bool :=
  match fetch with
  | Except.ok docked_status => vacuumDocked invertDockedStatus docked_status
  | Except.error _ => false

/-- A command sent to the device through the API client. -/
inductive VacuumCommand where
  | set_operating_mode (mode : OperatingModes)
deriving DecidableEq, Repr

/-- The delayed `updateCharacteristic(On, false)` resetting the momentary
Go Home switch 500 ms after the action. -/
inductive GoHomeSwitchUpdate where
  | turnOff
deriving DecidableEq, Repr

/-- `SharkIQAccessory.setGoHome`: when the switch is set on, send
`set_operating_mode(RETURN_TO_BASE)` (a failure is only logged — the
`_apiResult` does not change the visible outcome) and schedule the switch
reset; the `lastKnownStates` cache is never touched. -/
def setGoHome (s : LastKnownStates) (value : Bool) (_apiResult : Except String Unit) :
    LastKnownStates × List VacuumCommand × List GoHomeSwitchUpdate :=
  if value then
    (s, [VacuumCommand.set_operating_mode OperatingModes.RETURN_TO_BASE],
      [GoHomeSwitchUpdate.turnOff])
  else
    (s, [], [])

/-- Errors surfaced by the login path; the platform's guard throw
(`Either email/password or OAuth code must be provided in the configuration.`)
and `checkLogin`'s credential rejections are both configuration errors. -/
inductive LoginError where
  | configurationError
deriving DecidableEq, Repr

/-- Modelled from the spec: `Login.checkLogin` lives in `src/login.ts`, which
is not among the provided source files (only its caller
`SharkIQPlatform.login` is). Per the spec: asymmetric credentials — email
without password, or password without email — fail with `ConfigurationError`,
and so does the absence of both credential methods. -/
def checkLogin (email password oAuthCode : String) : Except LoginError Unit :=
  if email ≠ "" ∧ password = "" then Except.error LoginError.configurationError
  else if password ≠ "" ∧ email = "" then Except.error LoginError.configurationError
  else if email = "" ∧ password = "" ∧ oAuthCode = "" then
    Except.error LoginError.configurationError
  else Except.ok ()

/-- A discovered vacuum device (only its serial number matters here). -/
structure SharkIqVacuum where
  _dsn : String
deriving DecidableEq, Repr

/-- `SharkIQPlatform.login`: defaults the three config fields with `|| ''`,
throws when both email and OAuth code are empty, then runs `checkLogin`; on
success the Ayla sign-in and device fetch happen, abstracted by
`signInResult`. -/
def login (configEmail configPassword configOAuthCode : Option String)
    (signInResult : Except LoginError (List SharkIqVacuum)) :
    Except LoginError (List SharkIqVacuum) :=
  let email := configEmail.getD ""
  let password := configPassword.getD ""
  let oAuthCode := configOAuthCode.getD ""
  if email = "" ∧ oAuthCode = "" then Except.error LoginError.configurationError
  else
    match checkLogin email password oAuthCode with
    | Except.error e => Except.error e
    | Except.ok _ => signInResult

/-- The `vacuums` entry of the platform configuration: missing, present but
not an array, or an array of DSN strings. -/
inductive ConfigVacuums where
  | absent
  | notArray
  | array (dsns : List String)
deriving DecidableEq, Repr

/-- The observable outcome of `SharkIQPlatform.initializePlatform`: whether
the login/discovery path was entered, how many accessories were registered,
and whether a condition was reported to the log. -/
structure InitOutcome where
  loginAttempted : Bool
  registeredCount : Nat
  errorReported : Bool
deriving DecidableEq, Repr

/-- `SharkIQPlatform.initializePlatform`: when `config.vacuums` is not an
array or is empty, log an error and return before any login; otherwise log
in (failures are caught and logged), filter the account's devices by the
configured DSNs, and register an accessory per matching device not already
cached. -/
def initializePlatform (vacuums : ConfigVacuums) (cached : List String)
    (loginResult : Except String (List SharkIqVacuum)) : InitOutcome :=
  match vacuums with
  | ConfigVacuums.array serialNumbers =>
    if serialNumbers.length = 0 then
      { loginAttempted := false, registeredCount := 0, errorReported := true }
    else
      match loginResult with
      | Except.error _ =>
        { loginAttempted := true, registeredCount := 0, errorReported := true }
      | Except.ok devices =>
        let vacuumDevices := devices.filter fun d => serialNumbers.contains d._dsn
        if vacuumDevices.length = 0 then
          { loginAttempted := true, registeredCount := 0, errorReported := true }
        else
          { loginAttempted := true
            registeredCount := (vacuumDevices.filter fun d => !cached.contains d._dsn).length
            errorReported := false }
  | _ =>
    { loginAttempted := false, registeredCount := 0, errorReported := true }

/-- `const dockedUpdateInterval = this.config.dockedUpdateInterval || 5000;`
(`platform.ts` line 109): a missing or falsy (zero) configured value falls
back to 5000 ms. -/
def dockedUpdateInterval (configValue : Option Int) : Int :=
  match configValue with
  | none => 5000
  | some v => if v = 0 then 5000 else v

/-- The two durations the accessory derives from its single
`dockedUpdateInterval` field: the `setInterval` period of
`retrieveVacuumStatesWithInterval` (line 106) and the `setTimeout` delay of
`retrieveVacuumStatesWithDebounce` (line 97). -/
structure AccessoryPollingConfig where
  intervalPeriod : Int
  debounceDelay : Int
deriving DecidableEq, Repr

/-- Both durations read the same constructor argument
`this.dockedUpdateInterval`. -/
def accessoryPolling (interval : Int) : AccessoryPollingConfig :=
  { intervalPeriod := interval, debounceDelay := interval }

/-- `discoverDevices` computes the interval from the config and hands it to
each accessory. -/
def discoverDevicesPolling (configValue : Option Int) : AccessoryPollingConfig :=
  accessoryPolling (dockedUpdateInterval configValue)

/-- The debounce bookkeeping of the accessory: `this.retrieveStatesTimer`,
holding the absolute deadline of the pending `setTimeout`, or `none` when no
timer is pending. -/
structure DebounceState where
  retrieveStatesTimer : Option Nat
deriving DecidableEq, Repr, Inhabited

/-- `SharkIQAccessory.retrieveVacuumStatesWithDebounce` at time `now`:
`clearTimeout` on any pending timer (hence the old state is dropped), then
`setTimeout` the fetch `interval` milliseconds later. -/
def retrieveVacuumStatesWithDebounce (interval now : Nat) (_s : DebounceState) :
    DebounceState :=
  { retrieveStatesTimer := some (now + interval) }

/-- Timeline semantics of the debounce: given the (time-ordered) trigger
times — interval ticks and manual calls — return the times at which the
scheduled fetch (`retrieveVacuumStates`) actually fires. A pending timer
whose deadline precedes the next trigger fires; otherwise the next trigger's
`clearTimeout` cancels it and `retrieveVacuumStatesWithDebounce` reschedules. -/
def debounceFires (interval : Nat) : List Nat → DebounceState → List Nat
  | [], ⟨none⟩ => []
  | [], ⟨some d⟩ => [d]
  | t :: ts, ⟨none⟩ =>
    debounceFires interval ts (retrieveVacuumStatesWithDebounce interval t ⟨none⟩)
  | t :: ts, ⟨some d⟩ =>
    if d ≤ t then
      d :: debounceFires interval ts (retrieveVacuumStatesWithDebounce interval t ⟨none⟩)
    else
      debounceFires interval ts (retrieveVacuumStatesWithDebounce interval t ⟨some d⟩)

/-- No two fetches overlap: each fetch started from the trigger list `ts`
finishes (after `fetchDuration` ms) before the next one starts. -/
def inFlightSeparated (interval fetchDuration : Nat) (ts : List Nat) : Prop :=
  List.Chain' (fun a b => a + fetchDuration ≤ b) (debounceFires interval ts ⟨none⟩)

end SharkIQ

namespace SharkIQ

/-- C2: a failed `device.update` in `retrieveVacuumStates` leaves the cached
last-known state table unchanged in every field and emits no change
notification; the error is caught (logged), not propagated. -/
theorem retrieveVacuumStates_failure_frame (invertDockedStatus : Bool)
    (s : LastKnownStates) (e : String) :
    retrieveVacuumStates invertDockedStatus s (Except.error e) = (s, []) := rfl

/-- C8: the reported docked boolean is `(docked_status = 1) XOR invert`, so
the value with the inversion flag set is the boolean negation of the value
with it unset, for every raw status. -/
theorem vacuumDocked_xor (invertDockedStatus : Bool) (docked_status : Int) :
    vacuumDocked invertDockedStatus docked_status
      = Bool.xor (decide (docked_status = 1)) invertDockedStatus
    ∧ vacuumDocked true docked_status = !(vacuumDocked false docked_status) := by
  constructor
  · cases invertDockedStatus <;> by_cases h : docked_status = 1 <;> simp [vacuumDocked, h]
  · by_cases h : docked_status = 1 <;> simp [vacuumDocked, h]

/-- C9: when the on-demand docked-status fetch throws, `retrieveDockedStatus`
returns `false`, whatever the inversion flag (and independently of any cached
state, which the method never reads). -/
theorem retrieveDockedStatus_error_false (invertDockedStatus : Bool) (e : String) :
    retrieveDockedStatus invertDockedStatus (Except.error e) = false := rfl

/-- C5 (checkLogin modelled from the spec): with asymmetric credentials —
non-empty email and empty password, or non-empty password and empty email —
the login path reports a configuration error instead of proceeding. -/
theorem login_asymmetric_credentials_fail
    (configEmail configPassword configOAuthCode : Option String)
    (signInResult : Except LoginError (List SharkIqVacuum))
    (h : (configEmail.getD "" ≠ "" ∧ configPassword.getD "" = "")
        ∨ (configPassword.getD "" ≠ "" ∧ configEmail.getD "" = "")) :
    login configEmail configPassword configOAuthCode signInResult
      = Except.error LoginError.configurationError := by
  rcases h with ⟨he, hp⟩ | ⟨hp, he⟩
  · simp only [login, checkLogin]
    rw [if_neg (by simp [he]), if_pos ⟨he, hp⟩]
  · by_cases hc : configOAuthCode.getD "" = ""
    · simp only [login]
      rw [if_pos ⟨he, hc⟩]
    · simp only [login, checkLogin]
      rw [if_neg (by simp [hc]), if_neg (by simp [he]), if_pos ⟨hp, he⟩]

/-- C5 witness: email configured, password empty, no OAuth code. -/
theorem login_asymmetric_credentials_fail_witness :
    login (some "user@example.com") (some "") none (Except.ok [])
      = Except.error LoginError.configurationError :=
  login_asymmetric_credentials_fail (some "user@example.com") (some "") none
    (Except.ok []) (Or.inl (by simp))

/-- C6 counterexample: `setGoHome` sends the return-to-base command but
leaves the cached state table exactly as it was — the affected cached
operating-mode/active property still holds its pre-command value `some true`,
neither invalidated nor refreshed. -/
theorem setGoHome_stale_cache :
    (setGoHome ⟨some true, some true, some PowerModes.ECO⟩ true (Except.ok ())).2.1
      = [VacuumCommand.set_operating_mode OperatingModes.RETURN_TO_BASE]
    ∧ (setGoHome ⟨some true, some true, some PowerModes.ECO⟩ true (Except.ok ())).1.active
      = some true
    ∧ (setGoHome ⟨some true, some true, some PowerModes.ECO⟩ true (Except.ok ())).1
      = ⟨some true, some true, some PowerModes.ECO⟩ :=
  ⟨rfl, rfl, rfl⟩

/-- C6 amended: `setGoHome` sends `set_operating_mode(RETURN_TO_BASE)` via the
API client exactly when the switch is set on, schedules only the momentary
switch reset, and never invalidates or refreshes the cached state table —
the cache updates on the next poll. -/
theorem setGoHome_sends_and_preserves_cache (s : LastKnownStates) (value : Bool)
    (apiResult : Except String Unit) :
    (setGoHome s value apiResult).1 = s
    ∧ (setGoHome s value apiResult).2.1
      = (if value then [VacuumCommand.set_operating_mode OperatingModes.RETURN_TO_BASE] else [])
    ∧ (setGoHome s value apiResult).2.2
      = (if value then [GoHomeSwitchUpdate.turnOff] else []) := by
  cases value <;> simp [setGoHome]

/-- C7: with a missing, non-array or empty `vacuums` configuration entry,
`initializePlatform` returns without throwing, attempts no login or
discovery, registers zero accessories and reports the condition. -/
theorem initializePlatform_invalid_vacuums (vacuums : ConfigVacuums)
    (cached : List String) (loginResult : Except String (List SharkIqVacuum))
    (h : vacuums = ConfigVacuums.absent ∨ vacuums = ConfigVacuums.notArray
        ∨ vacuums = ConfigVacuums.array []) :
    initializePlatform vacuums cached loginResult
      = { loginAttempted := false, registeredCount := 0, errorReported := true } := by
  rcases h with h | h | h <;> subst h <;> rfl

/-- C7 witness: the `vacuums` entry is absent. -/
theorem initializePlatform_invalid_vacuums_witness :
    initializePlatform ConfigVacuums.absent [] (Except.ok [])
      = { loginAttempted := false, registeredCount := 0, errorReported := true } :=
  initializePlatform_invalid_vacuums ConfigVacuums.absent [] (Except.ok [])
    (Or.inl rfl)

/-- C10: the poll period and the debounce delay always coincide, and a
missing or zero configured interval makes both equal the 5000 ms default. -/
theorem dockedUpdateInterval_default (configValue : Option Int) :
    (discoverDevicesPolling configValue).intervalPeriod
      = (discoverDevicesPolling configValue).debounceDelay
    ∧ ((configValue = none ∨ configValue = some 0) →
        discoverDevicesPolling configValue
          = { intervalPeriod := 5000, debounceDelay := 5000 }) := by
  refine ⟨rfl, ?_⟩
  rintro (h | h) <;> subst h <;> rfl

/-- C10 witness: an absent configured interval yields 5000 ms for both. -/
theorem dockedUpdateInterval_default_witness :
    (discoverDevicesPolling none).intervalPeriod = (discoverDevicesPolling none).debounceDelay
    ∧ discoverDevicesPolling none = { intervalPeriod := 5000, debounceDelay := 5000 } :=
  ⟨(dockedUpdateInterval_default none).1,
    (dockedUpdateInterval_default none).2 (Or.inl rfl)⟩

/-- One successful poll body: per tracked property, one notification exactly
when the fresh value differs from the cache, and the resulting cache holds
the fresh values. -/
theorem retrieveVacuumStatesBody_spec (invertDockedStatus : Bool)
    (s : LastKnownStates) (f : VacuumStateFetch) :
    dockedEvents (retrieveVacuumStatesBody invertDockedStatus s f).2
      = (if s.docked = some (vacuumDocked invertDockedStatus f.docked_status) then 0 else 1)
    ∧ activeEvents (retrieveVacuumStatesBody invertDockedStatus s f).2
      = (if s.active = some (vacuumActive f.operating_mode) then 0 else 1)
    ∧ powerModeEvents (retrieveVacuumStatesBody invertDockedStatus s f).2
      = (if s.powerMode = some f.power_mode then 0 else 1) := by
  by_cases h1 : s.docked = some (vacuumDocked invertDockedStatus f.docked_status) <;>
    by_cases h2 : s.active = some (vacuumActive f.operating_mode) <;>
      by_cases h3 : s.powerMode = some f.power_mode <;>
        simp [retrieveVacuumStatesBody, dockedEvents, activeEvents, powerModeEvents,
          h1, h2, h3, List.filter]

/-- C1: over any sequence of successful polls, the poll at index `i` emits a
change notification for a tracked property (docked, active, power mode) if
and only if the freshly fetched value differs from the cached value right
before that poll (the initial `none` cache always differs), and each genuine
transition emits exactly one notification. -/
theorem retrieveVacuumStates_change_iff (invertDockedStatus : Bool)
    (s0 : LastKnownStates) (fs : List VacuumStateFetch) (i : Nat)
    (h : i < fs.length) :
    dockedEvents ((runPolls invertDockedStatus s0 fs).getD i [])
      = (if (stateBeforePoll invertDockedStatus s0 fs i).docked
            = some (vacuumDocked invertDockedStatus (fs.getD i default).docked_status)
          then 0 else 1)
    ∧ activeEvents ((runPolls invertDockedStatus s0 fs).getD i [])
      = (if (stateBeforePoll invertDockedStatus s0 fs i).active
            = some (vacuumActive (fs.getD i default).operating_mode)
          then 0 else 1)
    ∧ powerModeEvents ((runPolls invertDockedStatus s0 fs).getD i [])
      = (if (stateBeforePoll invertDockedStatus s0 fs i).powerMode
            = some (fs.getD i default).power_mode
          then 0 else 1) := by
  induction fs generalizing s0 i with
  | nil => exact absurd h (by simp)
  | cons f fs ih =>
    cases i with
    | zero =>
      have hb := retrieveVacuumStatesBody_spec invertDockedStatus s0 f
      simpa [runPolls, stateBeforePoll, retrieveVacuumStates] using hb
    | succ i =>
      have h2 : i < fs.length := by simpa using h
      simpa [runPolls, stateBeforePoll] using
        ih (retrieveVacuumStates invertDockedStatus s0 (Except.ok f)).1 i h2

/-- C1 witness, the spec's scenario: cached docked `true`, a poll fetching
docked `false` emits exactly one docked notification, and the next poll again
fetching `false` emits none. -/
theorem retrieveVacuumStates_change_iff_witness :
    dockedEvents ((runPolls false ⟨some true, none, none⟩
        [⟨0, OperatingModes.PAUSE, PowerModes.ECO⟩,
          ⟨0, OperatingModes.PAUSE, PowerModes.ECO⟩]).getD 0 []) = 1
    ∧ dockedEvents ((runPolls false ⟨some true, none, none⟩
        [⟨0, OperatingModes.PAUSE, PowerModes.ECO⟩,
          ⟨0, OperatingModes.PAUSE, PowerModes.ECO⟩]).getD 1 []) = 0 := by
  constructor
  · have h := retrieveVacuumStates_change_iff false ⟨some true, none, none⟩
      [⟨0, OperatingModes.PAUSE, PowerModes.ECO⟩,
        ⟨0, OperatingModes.PAUSE, PowerModes.ECO⟩] 0 (by decide)
    rw [h.1]
    decide
  · have h := retrieveVacuumStates_change_iff false ⟨some true, none, none⟩
      [⟨0, OperatingModes.PAUSE, PowerModes.ECO⟩,
        ⟨0, OperatingModes.PAUSE, PowerModes.ECO⟩] 1 (by decide)
    rw [h.1]
    decide

/-- Peeling one element off `getLastD`. -/
theorem getLastD_cons_eq (a d : Nat) (l : List Nat) : (a :: l).getLastD d = l.getLastD a := by
  cases l <;> rfl

/-- A burst under an armed timer: while every next trigger arrives before the
pending deadline, it keeps cancelling and rescheduling, so the single fetch
fires one interval after the last trigger. -/
theorem debounceFires_burst (interval : Nat) :
    ∀ (rest : List Nat) (u : Nat),
      List.Chain' (fun a b => a ≤ b ∧ b < a + interval) (u :: rest) →
      debounceFires interval rest ⟨some (u + interval)⟩ = [rest.getLastD u + interval] := by
  intro rest
  induction rest with
  | nil => intro u _; rfl
  | cons t ts ih =>
    intro u hchain
    have h1 : u ≤ t ∧ t < u + interval := (List.chain'_cons.mp hchain).1
    have h2 := (List.chain'_cons.mp hchain).2
    have hlt : ¬ (u + interval ≤ t) := by omega
    simp only [debounceFires, retrieveVacuumStatesWithDebounce, if_neg hlt]
    rw [ih t h2, getLastD_cons_eq]

/-- C3: any burst of `N ≥ 1` triggers, each arriving within less than one
debounce window of the previous one, coalesces into exactly one fetch (fired
one window after the last trigger): each new trigger cancels the pending
scheduled fetch and reschedules it. -/
theorem retrieveVacuumStatesWithDebounce_coalesces (interval : Nat)
    (ts : List Nat) (hne : ts ≠ [])
    (hburst : List.Chain' (fun a b => a ≤ b ∧ b < a + interval) ts) :
    debounceFires interval ts ⟨none⟩ = [ts.getLastD 0 + interval]
    ∧ (debounceFires interval ts ⟨none⟩).length = 1 := by
  match ts, hne with
  | t :: rest, _ =>
    have h := debounceFires_burst interval rest t hburst
    constructor
    · simp only [debounceFires, retrieveVacuumStatesWithDebounce]
      rw [h, getLastD_cons_eq]
    · simp only [debounceFires, retrieveVacuumStatesWithDebounce]
      rw [h]
      rfl

/-- C3 witness: three triggers at 0, 1, 2 ms with a 5 ms window yield exactly
the single fetch at 7 ms. -/
theorem retrieveVacuumStatesWithDebounce_coalesces_witness :
    debounceFires 5 [0, 1, 2] ⟨none⟩ = [7]
    ∧ (debounceFires 5 [0, 1, 2] ⟨none⟩).length = 1 := by
  have h := retrieveVacuumStatesWithDebounce_coalesces 5 [0, 1, 2] (by decide)
    (List.chain'_cons.mpr ⟨⟨by omega, by omega⟩, List.chain'_pair.mpr ⟨by omega, by omega⟩⟩)
  refine ⟨?_, h.2⟩
  rw [h.1]
  rfl

/-- C4 counterexample: two time-ordered triggers at 0 and 2 ms with a 1 ms
window produce two fetches, at 1 ms and 3 ms; with a fetch taking 10 ms the
second fetch starts while the first is still in flight — the debounce does
not bound the number of in-flight refreshes. -/
theorem debounce_not_single_flight :
    List.Chain' (fun a b => a ≤ b) [0, 2]
    ∧ debounceFires 1 [0, 2] ⟨none⟩ = [1, 3]
    ∧ ¬ inFlightSeparated 1 10 [0, 2] := by
  have hfires : debounceFires 1 [0, 2] ⟨none⟩ = [1, 3] := rfl
  refine ⟨List.chain'_pair.mpr (by omega), hfires, ?_⟩
  unfold inFlightSeparated
  rw [hfires, List.chain'_pair]
  omega

/-- Pending-timer invariant: from a timer armed at `u`, with time-ordered
later triggers, consecutive fetch starts are at least one debounce window
apart, and every fetch starts no earlier than `u + interval`. -/
theorem debounceFires_pending_sep (interval : Nat) :
    ∀ (ts : List Nat) (u : Nat),
      List.Pairwise (fun a b => a ≤ b) ts → (∀ x ∈ ts, u ≤ x) →
      List.Chain' (fun a b => a + interval ≤ b)
        (debounceFires interval ts ⟨some (u + interval)⟩)
      ∧ ∀ f ∈ debounceFires interval ts ⟨some (u + interval)⟩, u + interval ≤ f := by
  intro ts
  induction ts with
  | nil =>
    intro u _ _
    refine ⟨by simp [debounceFires], ?_⟩
    intro f hf
    simp [debounceFires] at hf
    omega
  | cons t ts ih =>
    intro u hpw hub
    have hut : u ≤ t := hub t (List.mem_cons_self t ts)
    obtain ⟨hhead, htail⟩ := List.pairwise_cons.mp hpw
    have hrec := ih t htail hhead
    by_cases hle : u + interval ≤ t
    · simp only [debounceFires, retrieveVacuumStatesWithDebounce, if_pos hle]
      constructor
      · refine List.chain'_cons'.mpr ⟨?_, hrec.1⟩
        intro y hy
        have hmem := List.mem_of_mem_head? hy
        have := hrec.2 y hmem
        omega
      · intro f hf
        rcases List.mem_cons.mp hf with h | h
        · omega
        · have := hrec.2 f h
          omega
    · simp only [debounceFires, retrieveVacuumStatesWithDebounce, if_neg hle]
      refine ⟨hrec.1, ?_⟩
      intro f hf
      have := hrec.2 f hf
      omega

/-- C4 amended: consecutive fetch starts produced by the debounce are at
least one debounce window apart, so provided each fetch completes within the
debounce window (`fetchDuration ≤ interval`) no two refresh fetches are ever
in flight together; the counterexample shows the guarantee fails for longer
fetches. -/
theorem debounce_fetch_separation (interval fetchDuration : Nat) (ts : List Nat)
    (hsorted : List.Chain' (fun a b => a ≤ b) ts)
    (hdur : fetchDuration ≤ interval) :
    inFlightSeparated interval fetchDuration ts := by
  unfold inFlightSeparated
  cases ts with
  | nil => simp [debounceFires]
  | cons t rest =>
    have hpw : List.Pairwise (fun a b => a ≤ b) (t :: rest) :=
      List.chain'_iff_pairwise.mp hsorted
    obtain ⟨hhead, htail⟩ := List.pairwise_cons.mp hpw
    have hrec := debounceFires_pending_sep interval rest t htail hhead
    have hchain : List.Chain' (fun a b => a + interval ≤ b)
        (debounceFires interval (t :: rest) ⟨none⟩) := by
      simp only [debounceFires, retrieveVacuumStatesWithDebounce]
      exact hrec.1
    exact hchain.imp fun hab => by omega

/-- C4 witness: triggers at 0, 5, 9 ms, a 2 ms window and 2 ms fetches — the
fetches at 2, 7, 11 ms never overlap. -/
theorem debounce_fetch_separation_witness :
    inFlightSeparated 2 2 [0, 5, 9] :=
  debounce_fetch_separation 2 2 [0, 5, 9]
    (List.chain'_cons.mpr ⟨by omega, List.chain'_pair.mpr (by omega)⟩) (by omega)

end SharkIQ
